import Mathlib

/-!
Shallow embedding of `gitup/update.py` (git-repo-updater).

The Python module is side-effecting: it reads the filesystem (`os.path.isdir`,
`os.path.exists`, `os.listdir`), mutates the process working directory
(`os.chdir`), runs git subprocesses (`subprocess.check_output` with
`stderr=subprocess.STDOUT`), and emits report lines through the output
collaborator `out(level, message)` from `gitup/output.py` plus one raw
`print`.

The embedding makes all of this explicit:
* `World` is a static oracle for the environment: the filesystem predicates
  and the subprocess boundary (the result of running a command in a given
  working directory).
* `St` is the mutable process state threaded through the functions: the
  current working directory, the sequence of emitted report events, and a
  log of every subprocess invocation (recorded with the working directory it
  ran in, so "command X was never issued" is a statement about the log).
* A Python function that can let `subprocess.CalledProcessError` escape is
  embedded with result type `Except St St`: `Except.ok st` is a normal
  return and `Except.error st` is an uncaught exception escaping the
  function, carrying the state at the moment it escaped.
-/

/-- A report event: either a leveled message routed through the output
collaborator `out(level, message)`, or a raw `print` of subprocess output. -/
inductive Event where
  | out (level : Nat) (msg : String)
  | print (msg : String)
deriving DecidableEq, Repr

/-- Process state threaded through the embedded functions: the current
working directory, the emitted events so far, and the log of subprocess
invocations as (working directory, command) pairs. -/
structure St where
  cwd : String
  events : List Event
  calls : List (String × String)
deriving DecidableEq, Repr

/-- Static environment oracle: filesystem predicates (`os.path.exists`,
`os.path.isdir`, whether `os.listdir` succeeds, and its result when it
does) and the subprocess boundary. `shell cwd cmd` is the raw outcome of
`subprocess.check_output(shlex.split(cmd), stderr=subprocess.STDOUT)` run
with working directory `cwd`: `Except.ok raw` is the captured combined
stdout+stderr on exit status 0, `Except.error ()` is
`subprocess.CalledProcessError` (nonzero exit status). -/
structure World where
  pathExists : String → Bool
  isDir : String → Bool
  listOk : String → Bool
  listDir : String → List String
  shell : String → String → Except Unit String

/-- Modelled from the spec: the output collaborator `out` lives in
`gitup/output.py`, which is not part of the given source; the spec describes
it as `emit(level, pre-styled message)`. Emitting is modelled as appending
the event to the state's event list. -/
def St.out (st : St) (level : Nat) (msg : String) : St :=
  { st with events := st.events ++ [Event.out level msg] }

/-- Python's bare `print(result)`: modelled as appending a raw print event. -/
def St.prt (st : St) (msg : String) : St :=
  { st with events := st.events ++ [Event.print msg] }

/-- Modelled from the spec: `bold` is a styling marker from
`gitup/output.py` (not in the given source); the spec says the core composes
pre-styled message strings, so styling is modelled as the identity on the
message text. -/
def bold (s : String) : String := s

/-- Modelled from the spec: `red` styling marker, identity on text
(see `bold`). -/
def red (s : String) : String := s

/-- Modelled from the spec: `green` styling marker, identity on text
(see `bold`). -/
def green (s : String) : String := s

/-- Modelled from the spec: `blue` styling marker, identity on text
(see `bold`). -/
def blue (s : String) : String := s

/-- Python `str.startswith`: prefix test on the underlying character list
(Lean's built-in `String.startsWith` is not kernel-reducible, so the
embedding uses a structural implementation with the same semantics). -/
def strStartsWith (s pat : String) : Bool := pat.data.isPrefixOf s.data

/-- Python `str.endswith`: suffix test on the underlying character list
(structural implementation, same semantics as Lean's `String.endsWith`). -/
def strEndsWith (s pat : String) : Bool := pat.data.isSuffixOf s.data

/-- Python `os.path.join a b` for the shapes used here: if `b` is absolute
it wins; otherwise join with a separator unless `a` already ends in one or
is empty. -/
def pathJoin (a b : String) : String :=
  if strStartsWith b "/" then b
  else if a = "" || strEndsWith a "/" then a ++ b
  else a ++ "/" ++ b

/-- Python `str.capitalize()`: first character uppercased, all remaining
characters lowercased. -/
def str_capitalize (s : String) : String :=
  match s.data with
  | [] => ""
  | c :: cs => String.mk (Char.toUpper c :: cs.map Char.toLower)

/-- The `result[:-1]` trim in `_exec_shell`: Python drops the final
character of any nonempty string (the code assumes it is the trailing
newline); the empty string is left unchanged by the `if result:` guard. -/
def trimOut (s : String) : String :=
  if s.isEmpty then s else s.dropRight 1

/-- Embedding of `_exec_shell(command)` (update.py lines 14-20): run the
command via `subprocess.check_output` with combined stdout+stderr, and on
success strip the last character when the output is nonempty. The
invocation is recorded in the call log (with the working directory it ran
in) whether it succeeds or fails; a nonzero exit status is the catchable
`Except.error ()` (Python: `subprocess.CalledProcessError`). -/
def _exec_shell (w : World) (st : St) (command : String) : St × Except Unit String :=
  ({ st with calls := st.calls ++ [(st.cwd, command)] },
   match w.shell st.cwd command with
   | Except.error e => Except.error e
   | Except.ok result => Except.ok (trimOut result))

/-- Embedding of `_directory_is_git_repo(directory_path)` (update.py lines
22-28): true iff the path is a directory containing a `.git` subdirectory.
`os.path.isdir` never raises (it reports `False` on any error), so the
probe is a total Boolean function with no state. -/
def _directory_is_git_repo (w : World) (directory_path : String) : Bool :=
  if w.isDir directory_path then
    if w.isDir (pathJoin directory_path ".git") then true else false
  else false

/-- Embedding of `_update_repository(repo_path, repo_name)` (update.py
lines 30-68). `os.chdir(repo_path)` is the assignment to `cwd` (the
Updater's precondition is that `repo_path` is an existing repository, so
`chdir` is modelled as always succeeding). The dry-run fetch and the log
command are wrapped in `try/except CalledProcessError`; the `git status`
and `git pull` invocations are NOT, so their failures escape the function
(`Except.error`). -/
def _update_repository (w : World) (st : St) (repo_path repo_name : String) : Except St St :=
  let st := st.out 1 (bold repo_name ++ ":")
  let st := { st with cwd := repo_path }
  let r1 := _exec_shell w st "git fetch --dry-run"
  let st := r1.1
  match r1.2 with
  | Except.error _ =>
      Except.ok (st.out 2 (red "Error: " ++
        "cannot fetch; do you have a remote repository configured correctly?"))
  | Except.ok dry_fetch =>
    let r2 := _exec_shell w st "git log -n 1 --pretty=\"%ar\""
    let st := r2.1
    let last_commit := match r2.2 with
      | Except.error _ => "never"
      | Except.ok lc => lc
    if dry_fetch.isEmpty then
      Except.ok (st.out 2 (blue "No new changes." ++
        " Last commit was " ++ last_commit ++ "."))
    else
      let st := st.out 2 "There are new changes upstream..."
      let r3 := _exec_shell w st "git status"
      let st := r3.1
      match r3.2 with
      | Except.error _ => Except.error st
      | Except.ok status =>
        if strEndsWith status "nothing to commit, working directory clean" then
          let st := st.out 2 (green "Pulling new changes...")
          let r4 := _exec_shell w st "git pull"
          let st := r4.1
          match r4.2 with
          | Except.error _ => Except.error st
          | Except.ok result =>
            let st := st.out 2
              ("The following changes have been made since " ++ last_commit ++ ":")
            Except.ok (st.prt result)
        else
          let st := st.out 2 (red "Warning: " ++
            "you have uncommitted changes in this repository!")
          Except.ok (st.out 2 "Ignoring.")

/-- The repository-discovery loop of `_update_directory` (update.py lines
104-111): enumerate the directory, join each entry onto the path and
display name, and keep those the probe accepts, in enumeration order. -/
def discovered_repos (w : World) (dir_path dir_name : String) : List (String × String) :=
  (w.listDir dir_path).filterMap (fun item =>
    let repo_path := pathJoin dir_path item
    let repo_name := pathJoin dir_name item
    if _directory_is_git_repo w repo_path then some (repo_path, repo_name) else none)

/-- Python's `<` on strings, on the underlying character lists: strict
lexicographic order on code points, a proper prefix being smaller. -/
def lexLtB : List Char → List Char → Bool
  | _, [] => false
  | [], _ :: _ => true
  | a :: as, b :: bs =>
    if a.toNat < b.toNat then true
    else if b.toNat < a.toNat then false
    else lexLtB as bs

/-- Python's `<` on strings. -/
def strLtB (a b : String) : Bool := lexLtB a.data b.data

/-- Python's `<=` on strings (the negation of the reversed `<`). -/
def strLeB (a b : String) : Bool := !(strLtB b a)

/-- Python's `list.sort()` comparison on `(repo_path, repo_name)` tuples:
lexicographic tuple order, primary key the path, tie broken by the name. -/
def pairLeB (a b : String × String) : Bool :=
  strLtB a.1 b.1 || (a.1 == b.1 && strLeB a.2 b.2)

/-- The sorting relation as a proposition. -/
def pairLe (a b : String × String) : Prop := pairLeB a b = true

instance : DecidableRel pairLe := fun a b => instDecidableEqBool (pairLeB a b) true

/-- The `for repo_path, repo_name in repositories:` loop at the end of
`_update_directory` (update.py lines 121-122): update each repository in
list order, sequentially; an exception escaping `_update_repository`
escapes the loop. -/
def update_repo_list (w : World) (st : St) : List (String × String) → Except St St
  | [] => Except.ok st
  | r :: rest =>
    match _update_repository w st r.1 r.2 with
    | Except.error s => Except.error s
    | Except.ok s => update_repo_list w s rest

/-- The `dir_long_name` string of `_update_directory` (update.py lines
78-83): the origin word ("bookmark" or "directory") followed by the quoted,
bold path. -/
def dir_long_name (is_bookmark : Bool) (dir_path : String) : String :=
  (if is_bookmark then "bookmark" else "directory") ++ " '" ++ bold dir_path ++ "'"

/-- The container count message of `_update_directory` (update.py lines
113-118): singular wording exactly when the count is 1, plural wording
otherwise. -/
def count_message (num_of_repos : Nat) (dln : String) : String :=
  if num_of_repos = 1 then
    str_capitalize dln ++ " contains 1 git repository:"
  else
    str_capitalize dln ++ " contains " ++ toString num_of_repos ++ " git repositories:"

/-- Embedding of `_update_directory(dir_path, dir_name, is_bookmark)`
(update.py lines 70-122). The `try: os.listdir(dir_path) except OSError`
accessibility test is `listOk`; then the not-a-directory / does-not-exist
checks, the single-repository branch, and the container branch with its
count message, sort, and update loop. -/
def _update_directory (w : World) (st : St) (dir_path dir_name : String)
    (is_bookmark : Bool) : Except St St :=
  let dln := dir_long_name is_bookmark dir_path
  if !(w.listOk dir_path) then
    Except.ok (st.out 0 (red "Error: " ++
      "cannot enter " ++ dln ++ "; does it exist?"))
  else if !(w.isDir dir_path) then
    (if w.pathExists dir_path then
      Except.ok (st.out 0 (red "Error: " ++ dln ++ " is not a directory!"))
    else
      Except.ok (st.out 0 (red "Error: " ++ dln ++ " does not exist!")))
  else if _directory_is_git_repo w dir_path then
    let st := st.out 0 (str_capitalize dln ++ " is a git repository:")
    _update_repository w st dir_path dir_name
  else
    let repositories := discovered_repos w dir_path dir_name
    let num_of_repos := repositories.length
    let st := st.out 0 (count_message num_of_repos dln)
    update_repo_list w st (List.insertionSort pairLe repositories)

/-- The `for bookmark_path, bookmark_name in bookmarks:` loop of
`update_bookmarks` (update.py lines 127-128): resolve each bookmark in
order with `is_bookmark=True`; an escaping exception aborts the loop. -/
def update_dir_list (w : World) (st : St) : List (String × String) → Except St St
  | [] => Except.ok st
  | b :: rest =>
    match _update_directory w st b.1 b.2 true with
    | Except.error s => Except.error s
    | Except.ok s => update_dir_list w s rest

/-- Embedding of `update_bookmarks(bookmarks)` (update.py lines 124-131):
an empty list emits the single guidance message; a nonempty list runs the
resolver loop. -/
def update_bookmarks (w : World) (st : St) (bookmarks : List (String × String)) :
    Except St St :=
  match bookmarks with
  | [] => Except.ok (st.out 0
      "You don't have any bookmarks configured! Get help with 'gitup -h'.")
  | _ :: _ => update_dir_list w st bookmarks

/-- State carried by either outcome of an embedded call: the final state on
a normal return, or the state at the moment an uncaught exception escaped. -/
def stateOf (r : Except St St) : St :=
  match r with
  | Except.ok s => s
  | Except.error s => s

def detailEvent (e : Event) : Prop :=
  (∃ m, e = Event.out 2 m) ∨ (∃ m, e = Event.print m)

/-- The level-1 messages (the per-repository header lines) of an event
sequence, in order. -/
def headersOf (evs : List Event) : List String :=
  evs.filterMap (fun e => match e with | Event.out 1 m => some m | _ => none)

/-- The level-0 messages (resolver/driver lines) of an event sequence, in
order. -/
def outZeroOf (evs : List Event) : List String :=
  evs.filterMap (fun e => match e with | Event.out 0 m => some m | _ => none)

/-- First character of a string, if any. -/
def firstChar (s : String) : Option Char := s.data.head?

/-- Initial process state for concrete runs: working directory `/`, nothing
emitted, nothing invoked. -/
def st0 : St := { cwd := "/", events := [], calls := [] }

/-- Concrete filesystem: `d` is a directory with a `.git` subdirectory. -/
def wRepo : World where
  pathExists := fun p => (p == "d") || (p == "d/.git")
  isDir := fun p => (p == "d") || (p == "d/.git")
  listOk := fun p => p == "d"
  listDir := fun _ => []
  shell := fun _ _ => Except.error ()

/-- Concrete filesystem: `s` is a directory whose `.git` entry exists but is
a regular file (as in a git submodule or linked worktree). -/
def wGitFile : World where
  pathExists := fun p => (p == "s") || (p == "s/.git") || (p == "d")
  isDir := fun p => (p == "s") || (p == "d")
  listOk := fun p => (p == "s") || (p == "d")
  listDir := fun p => if p == "d" then ["s"] else []
  shell := fun _ _ => Except.error ()

/-- Concrete world for the C1 witness: upstream changes exist and the
working tree is dirty. -/
def wDirty : World where
  pathExists := fun _ => true
  isDir := fun _ => true
  listOk := fun _ => true
  listDir := fun _ => []
  shell := fun _ cmd =>
    if cmd == "git fetch --dry-run" then Except.ok "x\n"
    else if cmd == "git status" then Except.ok "dirty\n"
    else Except.error ()

/-- Concrete world for C2: fetch reports upstream changes, the log command
succeeds, but `git status` exits nonzero. -/
def wStatusFail : World where
  pathExists := fun _ => true
  isDir := fun _ => true
  listOk := fun _ => true
  listDir := fun _ => []
  shell := fun _ cmd =>
    if cmd == "git fetch --dry-run" then Except.ok "x\n"
    else if cmd == "git log -n 1 --pretty=\"%ar\"" then Except.ok "1 day ago\n"
    else Except.error ()

/-- Concrete world for the C2 witness, fetch branch: the dry-run fetch
exits nonzero. -/
def wFetchFail : World where
  pathExists := fun _ => true
  isDir := fun _ => true
  listOk := fun _ => true
  listDir := fun _ => []
  shell := fun _ _ => Except.error ()

/-- Concrete world for the C2 witness, log branch: nothing to pull and no
commit history. -/
def wLogFail : World where
  pathExists := fun _ => true
  isDir := fun _ => true
  listOk := fun _ => true
  listDir := fun _ => []
  shell := fun _ cmd =>
    if cmd == "git fetch --dry-run" then Except.ok "\n"
    else Except.error ()

/-- Concrete world for the C2 witness, pull branch: upstream changes, clean
tree, but the pull itself exits nonzero. -/
def wPullFail : World where
  pathExists := fun _ => true
  isDir := fun _ => true
  listOk := fun _ => true
  listDir := fun _ => []
  shell := fun _ cmd =>
    if cmd == "git fetch --dry-run" then Except.ok "x\n"
    else if cmd == "git log -n 1 --pretty=\"%ar\"" then Except.ok "1 day ago\n"
    else if cmd == "git status" then
      Except.ok "nothing to commit, working directory clean\n"
    else Except.error ()

/-- Concrete world for C5: one command whose captured output is "abc"
(nonempty, not ending in a newline), one whose output is "x\n", and all
others failing. -/
def wTrim : World where
  pathExists := fun _ => true
  isDir := fun _ => true
  listOk := fun _ => true
  listDir := fun _ => []
  shell := fun _ cmd =>
    if cmd == "c" then Except.ok "abc"
    else if cmd == "nl" then Except.ok "x\n"
    else Except.error ()

/-- Concrete world for C4: `f` exists and is a regular file, so
`os.listdir("f")` raises `NotADirectoryError` (a subclass of `OSError`):
the path exists, is not a directory, and is not listable. -/
def wFile : World where
  pathExists := fun p => p == "f"
  isDir := fun _ => false
  listOk := fun _ => false
  listDir := fun _ => []
  shell := fun _ _ => Except.error ()

/-- Concrete container world for the C6 and C7 witnesses: directory `d`
enumerates its children in the unsorted order b, a, c; each child is a git
repository with no upstream changes. -/
def wCont : World where
  pathExists := fun p => (p == "d") || (p == "d/a") || (p == "d/b") || (p == "d/c")
  isDir := fun p => (p == "d") || (p == "d/a") || (p == "d/b") || (p == "d/c")
    || (p == "d/a/.git") || (p == "d/b/.git") || (p == "d/c/.git")
  listOk := fun p => p == "d"
  listDir := fun p => if p == "d" then ["b", "a", "c"] else []
  shell := fun _ cmd =>
    if cmd == "git fetch --dry-run" then Except.ok ""
    else if cmd == "git log -n 1 --pretty=\"%ar\"" then Except.ok "5 days ago\n"
    else Except.error ()

/-- The final state of the container run of `wCont`: repositories visited
in sorted order a, b, c although the filesystem enumerated b, a, c. -/
def stCont : St :=
  ⟨"d/c",
    [Event.out 0 "Directory 'd' contains 3 git repositories:",
      Event.out 1 "d/a:",
      Event.out 2 "No new changes. Last commit was 5 days ago.",
      Event.out 1 "d/b:",
      Event.out 2 "No new changes. Last commit was 5 days ago.",
      Event.out 1 "d/c:",
      Event.out 2 "No new changes. Last commit was 5 days ago."],
    [("d/a", "git fetch --dry-run"), ("d/a", "git log -n 1 --pretty=\"%ar\""),
      ("d/b", "git fetch --dry-run"), ("d/b", "git log -n 1 --pretty=\"%ar\""),
      ("d/c", "git fetch --dry-run"), ("d/c", "git log -n 1 --pretty=\"%ar\"")]⟩

lemma lexLtB_irrefl : ∀ as, lexLtB as as = false
  | [] => rfl
  | _ :: as => by simp [lexLtB, lexLtB_irrefl as]

lemma lexLtB_trichotomy : ∀ as bs, lexLtB as bs = true ∨ as = bs ∨ lexLtB bs as = true
  | [], [] => Or.inr (Or.inl rfl)
  | [], _ :: _ => Or.inl rfl
  | _ :: _, [] => Or.inr (Or.inr rfl)
  | a :: as, b :: bs => by
    rcases Nat.lt_trichotomy a.toNat b.toNat with h | h | h
    · exact Or.inl (by simp [lexLtB, h])
    · have hab : a = b := Char.ext (UInt32.ext h)
      subst hab
      rcases lexLtB_trichotomy as bs with h2 | h2 | h2
      · exact Or.inl (by simp [lexLtB, h2])
      · exact Or.inr (Or.inl (by rw [h2]))
      · exact Or.inr (Or.inr (by simp [lexLtB, h2]))
    · exact Or.inr (Or.inr (by simp [lexLtB, h]))

lemma lexLtB_trans : ∀ as bs cs, lexLtB as bs = true → lexLtB bs cs = true →
    lexLtB as cs = true
  | as, bs, [] => by
    intro _ h2
    cases bs <;> simp [lexLtB] at h2
  | as, [], _ :: _ => by
    intro h1 _
    cases as <;> simp [lexLtB] at h1
  | [], _ :: _, _ :: _ => by
    intro _ _
    rfl
  | a :: as, b :: bs, c :: cs => by
    intro h1 h2
    simp only [lexLtB] at h1 h2 ⊢
    by_cases hab : a.toNat < b.toNat <;> by_cases hba : b.toNat < a.toNat <;>
      by_cases hbc : b.toNat < c.toNat <;> by_cases hcb : c.toNat < b.toNat <;>
      simp only [hab, hba, hbc, hcb, if_true, if_false, ite_true, ite_false] at h1 h2 ⊢ <;>
      first
        | rfl
        | exact (Bool.false_ne_true h1).elim
        | exact (Bool.false_ne_true h2).elim
        | (have hac : a.toNat < c.toNat := by omega
           simp [hac])
        | (have hac1 : ¬ a.toNat < c.toNat := by omega
           have hac2 : ¬ c.toNat < a.toNat := by omega
           simp only [hac1, hac2, if_false, ite_false]
           exact lexLtB_trans as bs cs h1 h2)

lemma lexLtB_asymm {as bs} (h : lexLtB as bs = true) : lexLtB bs as = false := by
  by_contra hc
  have h2 : lexLtB bs as = true := by
    cases hx : lexLtB bs as
    · exact absurd hx hc
    · rfl
  have := lexLtB_trans as bs as h h2
  rw [lexLtB_irrefl] at this
  exact Bool.false_ne_true this

/-- Unfolding of the tuple order into its two disjuncts. -/
lemma pairLe_iff (a b : String × String) :
    pairLe a b ↔
      (lexLtB a.1.data b.1.data = true ∨
        (a.1 = b.1 ∧ lexLtB b.2.data a.2.data = false)) := by
  simp [pairLe, pairLeB, strLtB, strLeB, Bool.or_eq_true, Bool.and_eq_true,
    Bool.not_eq_true', beq_iff_eq]

instance : IsTotal (String × String) pairLe where
  total a b := by
    rw [pairLe_iff, pairLe_iff]
    rcases lexLtB_trichotomy a.1.data b.1.data with h | h | h
    · exact Or.inl (Or.inl h)
    · have he : a.1 = b.1 := congrArg String.mk h
      rcases lexLtB_trichotomy a.2.data b.2.data with h2 | h2 | h2
      · exact Or.inl (Or.inr ⟨he, lexLtB_asymm h2⟩)
      · exact Or.inl (Or.inr ⟨he, by rw [h2]; exact lexLtB_irrefl _⟩)
      · exact Or.inr (Or.inr ⟨he.symm, lexLtB_asymm h2⟩)
    · exact Or.inr (Or.inl h)

instance : IsTrans (String × String) pairLe where
  trans a b c hab hbc := by
    rw [pairLe_iff] at hab hbc ⊢
    rcases hab with h1 | ⟨e1, l1⟩
    · rcases hbc with h2 | ⟨e2, _⟩
      · exact Or.inl (lexLtB_trans _ _ _ h1 h2)
      · exact Or.inl (by rw [← e2]; exact h1)
    · rcases hbc with h2 | ⟨e2, l2⟩
      · exact Or.inl (by rw [e1]; exact h2)
      · refine Or.inr ⟨e1.trans e2, ?_⟩
        cases hx : lexLtB c.2.data a.2.data
        · rfl
        · exfalso
          rcases lexLtB_trichotomy a.2.data b.2.data with hy | hy | hy
          · have hz := lexLtB_trans _ _ _ hx hy
            rw [l2] at hz
            exact Bool.false_ne_true hz
          · rw [hy] at hx
            rw [l2] at hx
            exact Bool.false_ne_true hx
          · rw [l1] at hy
            exact Bool.false_ne_true hy

/-- The tuple order is primarily by path: a `pairLe` step weakly increases
the repository path. -/
lemma pairLe_path {a b : String × String} (h : pairLe a b) :
    strLtB a.1 b.1 = true ∨ a.1 = b.1 := by
  rw [pairLe_iff] at h
  rcases h with h1 | ⟨e1, _⟩
  · exact Or.inl h1
  · exact Or.inr e1

lemma update_repository_shape (w : World) (st : St) (p n : String) :
    ∃ evs cls,
      stateOf (_update_repository w st p n) =
        ⟨p, st.events ++ Event.out 1 (bold n ++ ":") :: evs, st.calls ++ cls⟩ ∧
      (∀ e ∈ evs, detailEvent e) ∧ (∀ c ∈ cls, c.1 = p) := by
  simp only [_update_repository, _exec_shell, St.out, St.prt]
  rcases h1 : w.shell p "git fetch --dry-run" with e1 | f
  · exact ⟨[Event.out 2 (red "Error: " ++
        "cannot fetch; do you have a remote repository configured correctly?")],
      [(p, "git fetch --dry-run")],
      by simp [stateOf], by simp [detailEvent], by simp⟩
  · rcases h2 : w.shell p "git log -n 1 --pretty=\"%ar\"" with e2 | lc <;>
      by_cases h3 : (trimOut f).isEmpty <;>
      simp only [h3, if_true, if_false, ite_true, ite_false]
    · exact ⟨[Event.out 2 (blue "No new changes." ++ " Last commit was " ++ "never" ++ ".")],
        [(p, "git fetch --dry-run"), (p, "git log -n 1 --pretty=\"%ar\"")],
        by simp [stateOf], by simp [detailEvent], by simp⟩
    · rcases h4 : w.shell p "git status" with e3 | s
      · exact ⟨[Event.out 2 "There are new changes upstream..."],
          [(p, "git fetch --dry-run"), (p, "git log -n 1 --pretty=\"%ar\""), (p, "git status")],
          by simp [stateOf], by simp [detailEvent], by simp⟩
      · by_cases h5 : strEndsWith (trimOut s) "nothing to commit, working directory clean" <;>
          simp only [h5, if_true, if_false, ite_true, ite_false]
        · rcases h6 : w.shell p "git pull" with e4 | r
          · exact ⟨[Event.out 2 "There are new changes upstream...",
              Event.out 2 (green "Pulling new changes...")],
              [(p, "git fetch --dry-run"), (p, "git log -n 1 --pretty=\"%ar\""),
               (p, "git status"), (p, "git pull")],
              by simp [stateOf], by simp [detailEvent], by simp⟩
          · exact ⟨[Event.out 2 "There are new changes upstream...",
              Event.out 2 (green "Pulling new changes..."),
              Event.out 2 "The following changes have been made since never:",
              Event.print (trimOut r)],
              [(p, "git fetch --dry-run"), (p, "git log -n 1 --pretty=\"%ar\""),
               (p, "git status"), (p, "git pull")],
              by simp [stateOf]; decide, by simp [detailEvent], by simp⟩
        · exact ⟨[Event.out 2 "There are new changes upstream...",
            Event.out 2 (red "Warning: " ++ "you have uncommitted changes in this repository!"),
            Event.out 2 "Ignoring."],
            [(p, "git fetch --dry-run"), (p, "git log -n 1 --pretty=\"%ar\""), (p, "git status")],
            by simp [stateOf], by simp [detailEvent], by simp⟩
    · exact ⟨[Event.out 2 (blue "No new changes." ++ " Last commit was " ++ trimOut lc ++ ".")],
        [(p, "git fetch --dry-run"), (p, "git log -n 1 --pretty=\"%ar\"")],
        by simp [stateOf], by simp [detailEvent], by simp⟩
    · rcases h4 : w.shell p "git status" with e3 | s
      · exact ⟨[Event.out 2 "There are new changes upstream..."],
          [(p, "git fetch --dry-run"), (p, "git log -n 1 --pretty=\"%ar\""), (p, "git status")],
          by simp [stateOf], by simp [detailEvent], by simp⟩
      · by_cases h5 : strEndsWith (trimOut s) "nothing to commit, working directory clean" <;>
          simp only [h5, if_true, if_false, ite_true, ite_false]
        · rcases h6 : w.shell p "git pull" with e4 | r
          · exact ⟨[Event.out 2 "There are new changes upstream...",
              Event.out 2 (green "Pulling new changes...")],
              [(p, "git fetch --dry-run"), (p, "git log -n 1 --pretty=\"%ar\""),
               (p, "git status"), (p, "git pull")],
              by simp [stateOf], by simp [detailEvent], by simp⟩
          · exact ⟨[Event.out 2 "There are new changes upstream...",
              Event.out 2 (green "Pulling new changes..."),
              Event.out 2 ("The following changes have been made since " ++ trimOut lc ++ ":"),
              Event.print (trimOut r)],
              [(p, "git fetch --dry-run"), (p, "git log -n 1 --pretty=\"%ar\""),
               (p, "git status"), (p, "git pull")],
              by simp [stateOf], by simp [detailEvent], by simp⟩
        · exact ⟨[Event.out 2 "There are new changes upstream...",
            Event.out 2 (red "Warning: " ++ "you have uncommitted changes in this repository!"),
            Event.out 2 "Ignoring."],
            [(p, "git fetch --dry-run"), (p, "git log -n 1 --pretty=\"%ar\""), (p, "git status")],
            by simp [stateOf], by simp [detailEvent], by simp⟩

lemma headersOf_append (a b : List Event) :
    headersOf (a ++ b) = headersOf a ++ headersOf b := by
  simp [headersOf]

lemma outZeroOf_append (a b : List Event) :
    outZeroOf (a ++ b) = outZeroOf a ++ outZeroOf b := by
  simp [outZeroOf]

lemma headersOf_details : ∀ {evs : List Event}, (∀ e ∈ evs, detailEvent e) →
    headersOf evs = []
  | [], _ => rfl
  | e :: rest, h => by
    have h2 := headersOf_details (fun x hx => h x (List.mem_cons_of_mem e hx))
    rcases h e (List.mem_cons_self e rest) with ⟨m, hm⟩ | ⟨m, hm⟩ <;>
      subst hm <;> simpa [headersOf] using h2

lemma outZeroOf_details : ∀ {evs : List Event}, (∀ e ∈ evs, detailEvent e) →
    outZeroOf evs = []
  | [], _ => rfl
  | e :: rest, h => by
    have h2 := outZeroOf_details (fun x hx => h x (List.mem_cons_of_mem e hx))
    rcases h e (List.mem_cons_self e rest) with ⟨m, hm⟩ | ⟨m, hm⟩ <;>
      subst hm <;> simpa [outZeroOf] using h2

lemma mem_outZeroOf : ∀ {evs : List Event} {m : String}, Event.out 0 m ∈ evs →
    m ∈ outZeroOf evs
  | [], m, h => absurd h (List.not_mem_nil _)
  | e :: rest, m, h => by
    rcases List.mem_cons.mp h with he | he
    · subst he
      simp [outZeroOf]
    · have hr := mem_outZeroOf he
      rcases e with ⟨l, s⟩ | s
      · match l with
        | 0 =>
          simp only [outZeroOf, List.filterMap_cons] at hr ⊢
          exact List.mem_cons_of_mem s hr
        | Nat.succ k =>
          simp only [outZeroOf, List.filterMap_cons] at hr ⊢
          exact hr
      · simp only [outZeroOf, List.filterMap_cons] at hr ⊢
        exact hr

lemma headersOf_cons_out1 (m : String) (evs : List Event) :
    headersOf (Event.out 1 m :: evs) = m :: headersOf evs := by
  simp [headersOf]

lemma outZeroOf_cons_out1 (m : String) (evs : List Event) :
    outZeroOf (Event.out 1 m :: evs) = outZeroOf evs := by
  simp [outZeroOf]

lemma outZeroOf_cons_out0 (m : String) (evs : List Event) :
    outZeroOf (Event.out 0 m :: evs) = m :: outZeroOf evs := by
  simp [outZeroOf]

lemma headersOf_cons_out0 (m : String) (evs : List Event) :
    headersOf (Event.out 0 m :: evs) = headersOf evs := by
  simp [headersOf]

lemma update_repo_list_ok (w : World) :
    ∀ (l : List (String × String)) (st st' : St),
      update_repo_list w st l = Except.ok st' →
      ∃ t, st'.events = st.events ++ t ∧
        headersOf t = l.map (fun r => bold r.2 ++ ":") ∧ outZeroOf t = []
  | [], st, st', h => by
    simp only [update_repo_list] at h
    cases h
    exact ⟨[], by simp, rfl, rfl⟩
  | r :: rest, st, st', h => by
    simp only [update_repo_list] at h
    rcases hr : _update_repository w st r.1 r.2 with s | s
    · rw [hr] at h
      cases h
    · rw [hr] at h
      obtain ⟨evs, cls, hst, hdet, _⟩ := update_repository_shape w st r.1 r.2
      rw [hr] at hst
      have hs : s = ⟨r.1, st.events ++ Event.out 1 (bold r.2 ++ ":") :: evs,
          st.calls ++ cls⟩ := hst
      obtain ⟨t2, ht2, hh2, hz2⟩ := update_repo_list_ok w rest s st' h
      refine ⟨(Event.out 1 (bold r.2 ++ ":") :: evs) ++ t2, ?_, ?_, ?_⟩
      · rw [ht2, hs]
        simp
      · rw [headersOf_append, hh2, headersOf_cons_out1, headersOf_details hdet]
        simp
      · rw [outZeroOf_append, hz2, outZeroOf_cons_out1, outZeroOf_details hdet]
        rfl

lemma update_repo_list_events (w : World) :
    ∀ (l : List (String × String)) (st : St),
      ∃ t, (stateOf (update_repo_list w st l)).events = st.events ++ t ∧
        outZeroOf t = []
  | [], st => ⟨[], by simp [update_repo_list, stateOf], rfl⟩
  | r :: rest, st => by
    simp only [update_repo_list]
    obtain ⟨evs, cls, hst, hdet, _⟩ := update_repository_shape w st r.1 r.2
    rcases hr : _update_repository w st r.1 r.2 with s | s <;> rw [hr] at hst
    · have hs : s = ⟨r.1, st.events ++ Event.out 1 (bold r.2 ++ ":") :: evs,
          st.calls ++ cls⟩ := hst
      refine ⟨Event.out 1 (bold r.2 ++ ":") :: evs, ?_, ?_⟩
      · rw [stateOf, hs]
      · rw [outZeroOf_cons_out1, outZeroOf_details hdet]
    · have hs : s = ⟨r.1, st.events ++ Event.out 1 (bold r.2 ++ ":") :: evs,
          st.calls ++ cls⟩ := hst
      obtain ⟨t2, ht2, hz2⟩ := update_repo_list_events w rest s
      refine ⟨(Event.out 1 (bold r.2 ++ ":") :: evs) ++ t2, ?_, ?_⟩
      · rw [ht2, hs]
        simp
      · rw [outZeroOf_append, hz2, outZeroOf_cons_out1, outZeroOf_details hdet]
        rfl

lemma firstChar_append {a : String} (b : String) {c : Char}
    (h : firstChar a = some c) : firstChar (a ++ b) = some c := by
  unfold firstChar at h ⊢
  have hd : (a ++ b).data = a.data ++ b.data := rfl
  rw [hd]
  cases hx : a.data with
  | nil => rw [hx] at h; cases h
  | cons x xs =>
    rw [hx] at h
    simpa using h

lemma firstChar_capitalize {s : String} {c : Char}
    (h : firstChar s = some c) :
    firstChar (str_capitalize s) = some c.toUpper := by
  unfold firstChar at h ⊢
  unfold str_capitalize
  cases hx : s.data with
  | nil => rw [hx] at h; cases h
  | cons x xs =>
    rw [hx] at h
    simp at h ⊢
    rw [h]

lemma update_directory_unlistable (w : World) (st : St) (p n : String)
    (flag : Bool) (hl : w.listOk p = false) :
    _update_directory w st p n flag =
      Except.ok (st.out 0 (red "Error: " ++
        "cannot enter " ++ dir_long_name flag p ++ "; does it exist?")) := by
  unfold _update_directory
  rw [hl]
  rfl

lemma update_directory_not_dir (w : World) (st : St) (p n : String)
    (flag : Bool) (hl : w.listOk p = true) (hd : w.isDir p = false) :
    _update_directory w st p n flag =
      (if w.pathExists p then
        Except.ok (st.out 0 (red "Error: " ++ dir_long_name flag p ++
          " is not a directory!"))
      else
        Except.ok (st.out 0 (red "Error: " ++ dir_long_name flag p ++
          " does not exist!"))) := by
  unfold _update_directory
  rw [hl, hd]
  rfl

lemma update_directory_repo (w : World) (st : St) (p n : String)
    (flag : Bool) (hl : w.listOk p = true) (hd : w.isDir p = true)
    (hg : _directory_is_git_repo w p = true) :
    _update_directory w st p n flag =
      _update_repository w
        (st.out 0 (str_capitalize (dir_long_name flag p) ++ " is a git repository:"))
        p n := by
  unfold _update_directory
  rw [hl, hd, hg]
  rfl

lemma update_directory_container (w : World) (st : St) (p n : String)
    (flag : Bool) (hl : w.listOk p = true) (hd : w.isDir p = true)
    (hg : _directory_is_git_repo w p = false) :
    _update_directory w st p n flag =
      update_repo_list w
        (st.out 0 (count_message (discovered_repos w p n).length
          (dir_long_name flag p)))
        (List.insertionSort pairLe (discovered_repos w p n)) := by
  unfold _update_directory
  rw [hl, hd, hg]
  rfl

lemma firstChar_dir_long_name (p : String) :
    firstChar (dir_long_name true p) = some 'b' := by
  unfold dir_long_name
  apply firstChar_append
  apply firstChar_append
  apply firstChar_append
  rfl

lemma firstChar_count_message (n : Nat) (p : String) :
    firstChar (count_message n (dir_long_name true p)) = some 'B' := by
  have hc : firstChar (str_capitalize (dir_long_name true p)) = some 'B' := by
    have := firstChar_capitalize (firstChar_dir_long_name p)
    simpa using this
  unfold count_message
  by_cases h : n = 1 <;> simp only [h, if_true, if_false, ite_true, ite_false]
  · exact firstChar_append _ hc
  · exact firstChar_append _ (firstChar_append _ (firstChar_append _ hc))

lemma update_directory_out_zero (w : World) (st : St) (p n : String) :
    ∃ t, (stateOf (_update_directory w st p n true)).events = st.events ++ t ∧
      ∀ m ∈ outZeroOf t, firstChar m = some 'E' ∨ firstChar m = some 'B' := by
  have hE : firstChar (red "Error: ") = some 'E' := rfl
  rcases hl : w.listOk p with hfalse | htrue
  · rw [update_directory_unlistable w st p n true hl]
    refine ⟨[Event.out 0 (red "Error: " ++
      "cannot enter " ++ dir_long_name true p ++ "; does it exist?")], by
        simp [stateOf, St.out], ?_⟩
    intro m hm
    simp [outZeroOf] at hm
    subst hm
    exact Or.inl (firstChar_append _ (firstChar_append _ (firstChar_append _ hE)))
  · rcases hd : w.isDir p with hdf | hdt
    · rw [update_directory_not_dir w st p n true hl hd]
      rcases hx : w.pathExists p with _ | _
      · rw [if_neg Bool.false_ne_true]
        refine ⟨[Event.out 0 (red "Error: " ++ dir_long_name true p ++
          " does not exist!")], by simp [stateOf, St.out], ?_⟩
        intro m hm
        simp [outZeroOf] at hm
        subst hm
        exact Or.inl (firstChar_append _ (firstChar_append _ hE))
      · rw [if_pos rfl]
        refine ⟨[Event.out 0 (red "Error: " ++ dir_long_name true p ++
          " is not a directory!")], by simp [stateOf, St.out], ?_⟩
        intro m hm
        simp [outZeroOf] at hm
        subst hm
        exact Or.inl (firstChar_append _ (firstChar_append _ hE))
    · rcases hg : _directory_is_git_repo w p with hgf | hgt
      · rw [update_directory_container w st p n true hl hd hg]
        obtain ⟨t2, ht2, hz2⟩ := update_repo_list_events w
          (List.insertionSort pairLe (discovered_repos w p n))
          (st.out 0 (count_message (discovered_repos w p n).length (dir_long_name true p)))
        refine ⟨Event.out 0 (count_message (discovered_repos w p n).length
          (dir_long_name true p)) :: t2, ?_, ?_⟩
        · rw [ht2]
          simp [St.out]
        · intro m hm
          rw [outZeroOf_cons_out0, hz2] at hm
          rcases List.mem_cons.mp hm with he | he
          · subst he
            exact Or.inr (firstChar_count_message _ _)
          · cases he
      · rw [update_directory_repo w st p n true hl hd hg]
        obtain ⟨evs, cls, hst, hdet, _⟩ := update_repository_shape w
          (st.out 0 (str_capitalize (dir_long_name true p) ++ " is a git repository:"))
          p n
        refine ⟨Event.out 0 (str_capitalize (dir_long_name true p) ++
          " is a git repository:") :: Event.out 1 (bold n ++ ":") :: evs, ?_, ?_⟩
        · rw [hst]
          simp [St.out]
        · intro m hm
          rw [outZeroOf_cons_out0, outZeroOf_cons_out1, outZeroOf_details hdet] at hm
          rcases List.mem_cons.mp hm with he | he
          · subst he
            refine Or.inr (firstChar_append _ ?_)
            have := firstChar_capitalize (firstChar_dir_long_name p)
            simpa using this
          · cases he

lemma discovered_probe (w : World) (dp dn : String) :
    ∀ r ∈ discovered_repos w dp dn, _directory_is_git_repo w r.1 = true := by
  intro r hr
  unfold discovered_repos at hr
  rw [List.mem_filterMap] at hr
  obtain ⟨item, _, hit⟩ := hr
  simp only at hit
  split at hit
  · cases hit
    simpa using by assumption
  · cases hit

lemma isEmpty_false_of_ends_newline {raw : String}
    (h : strEndsWith raw "\n" = true) : raw.isEmpty = false := by
  rw [Bool.eq_false_iff]
  intro hc
  rw [String.isEmpty_iff raw] at hc
  subst hc
  cases h

lemma update_dir_list_events (w : World) :
    ∀ (l : List (String × String)) (st : St),
      ∃ t, (stateOf (update_dir_list w st l)).events = st.events ++ t ∧
        ∀ m ∈ outZeroOf t, firstChar m = some 'E' ∨ firstChar m = some 'B'
  | [], st => ⟨[], by simp [update_dir_list, stateOf],
      fun _ hm => absurd hm (List.not_mem_nil _)⟩
  | b :: rest, st => by
    simp only [update_dir_list]
    obtain ⟨t1, ht1, hz1⟩ := update_directory_out_zero w st b.1 b.2
    rcases hb : _update_directory w st b.1 b.2 true with s | s <;>
      rw [hb] at ht1 <;> simp only [stateOf] at ht1
    · exact ⟨t1, ht1, hz1⟩
    · obtain ⟨t2, ht2, hz2⟩ := update_dir_list_events w rest s
      refine ⟨t1 ++ t2, ?_, ?_⟩
      · rw [ht2, ht1]
        simp
      · intro m hm
        rw [outZeroOf_append] at hm
        rcases List.mem_append.mp hm with h | h
        · exact hz1 m h
        · exact hz2 m h

/-- C3: the Repository Probe returns false for a nonexistent path, false
for an existing path with no `.git` subdirectory, true for an existing path
with a `.git` subdirectory; it is a total Boolean function (never throws,
no mutation).  The two hypotheses are filesystem consistency facts: a
directory exists, and a path with a subdirectory is itself a directory. -/
theorem probe_spec (w : World) (P : String)
    (hex : w.isDir P = true → w.pathExists P = true)
    (hsub : w.isDir (pathJoin P ".git") = true → w.isDir P = true) :
    (w.pathExists P = false → _directory_is_git_repo w P = false) ∧
    (w.pathExists P = true → w.isDir (pathJoin P ".git") = false →
      _directory_is_git_repo w P = false) ∧
    (w.pathExists P = true → w.isDir (pathJoin P ".git") = true →
      _directory_is_git_repo w P = true) := by
  unfold _directory_is_git_repo
  refine ⟨?_, ?_, ?_⟩
  · intro hne
    rcases hdir : w.isDir P with _ | _
    · simp
    · rw [hex hdir] at hne
      cases hne
  · intro _ hng
    rw [hng]
    simp
  · intro _ hg
    rw [hsub hg, hg]
    simp

/-- Witness for C3 at a concrete filesystem. -/
theorem probe_spec_witness : _directory_is_git_repo wRepo "d" = true :=
  (probe_spec wRepo "d" (by decide) (by decide)).2.2 (by decide) (by decide)

/-- C10: the Probe rejects a path whose `.git` entry exists but is a file
rather than a directory, so such a working copy never appears among the
discovered repositories of any container (hence is never passed to the
Updater). -/
theorem probe_ignores_git_file (w : World) (P : String)
    (hdir : w.isDir P = true)
    (hfile : w.pathExists (pathJoin P ".git") = true)
    (hnot : w.isDir (pathJoin P ".git") = false) :
    _directory_is_git_repo w P = false ∧
    ∀ dp dn, P ∉ (List.insertionSort pairLe (discovered_repos w dp dn)).map
      Prod.fst := by
  have hp : _directory_is_git_repo w P = false := by
    unfold _directory_is_git_repo
    rw [hdir, hnot]
    simp
  refine ⟨hp, ?_⟩
  intro dp dn hmem
  rw [List.mem_map] at hmem
  obtain ⟨r, hr, hrP⟩ := hmem
  have hr2 : r ∈ discovered_repos w dp dn :=
    (List.mem_insertionSort pairLe).mp hr
  have := discovered_probe w dp dn r hr2
  rw [hrP, hp] at this
  cases this

/-- Witness for C10 at a concrete filesystem: `s/.git` is a file, the probe
rejects `s`, and `s` is not discovered inside the container `d`. -/
theorem probe_ignores_git_file_witness :
    _directory_is_git_repo wGitFile "s" = false ∧
    "s" ∉ (List.insertionSort pairLe (discovered_repos wGitFile "d" "d")).map
      Prod.fst :=
  ⟨(probe_ignores_git_file wGitFile "s" (by decide) (by decide) (by decide)).1,
   (probe_ignores_git_file wGitFile "s" (by decide) (by decide) (by decide)).2
     "d" "d"⟩

/-- C9: the Updater sets the process working directory to the repository
path before every git command it issues (each logged call ran with
`cwd = p`) and never restores it: whatever branch is taken - including the
fetch-error return and the uncaught status/pull failures - the working
directory after the call is still the repository path. -/
theorem updater_cwd_persists (w : World) (st : St) (p n : String) :
    (stateOf (_update_repository w st p n)).cwd = p ∧
    ∃ cls, (stateOf (_update_repository w st p n)).calls = st.calls ++ cls ∧
      ∀ c ∈ cls, c.1 = p := by
  obtain ⟨evs, cls, hst, _, hcls⟩ := update_repository_shape w st p n
  rw [hst]
  exact ⟨rfl, cls, rfl, hcls⟩

/-- C1: whenever the trimmed `git status` text does not end with the exact
clean-tree marker "nothing to commit, working directory clean" (and the
update reached the status check: fetch succeeded with nonempty dry-run
output, status succeeded), the Updater issues no pull - the only commands
ever invoked are fetch, log and status - emits the uncommitted-changes
warning and the "Ignoring." note, and returns normally, stopping work on
this repository. -/
theorem dirty_tree_never_pulls (w : World) (st : St) (p n f s : String)
    (hf : w.shell p "git fetch --dry-run" = Except.ok f)
    (hne : (trimOut f).isEmpty = false)
    (hs : w.shell p "git status" = Except.ok s)
    (hdirty : strEndsWith (trimOut s)
      "nothing to commit, working directory clean" = false) :
    _update_repository w st p n =
      Except.ok ⟨p,
        st.events ++ [Event.out 1 (bold n ++ ":"),
          Event.out 2 "There are new changes upstream...",
          Event.out 2 (red "Warning: " ++
            "you have uncommitted changes in this repository!"),
          Event.out 2 "Ignoring."],
        st.calls ++ [(p, "git fetch --dry-run"),
          (p, "git log -n 1 --pretty=\"%ar\""), (p, "git status")]⟩ ∧
    (∀ c ∈ [(p, "git fetch --dry-run"),
        (p, "git log -n 1 --pretty=\"%ar\""), (p, "git status")],
      c.2 ≠ "git pull") := by
  constructor
  · simp only [_update_repository, _exec_shell, St.out]
    rw [hf]
    rcases hlog : w.shell p "git log -n 1 --pretty=\"%ar\"" with u | lc <;>
      simp only [hlog, hne, hs, hdirty, if_false, ite_false] <;> simp [hs, hdirty, hne]
  · intro c hc
    rcases List.mem_cons.mp hc with h | h
    · subst h; simp
    rcases List.mem_cons.mp h with h2 | h2
    · subst h2; simp
    rcases List.mem_cons.mp h2 with h3 | h3
    · subst h3; simp
    · cases h3

/-- Witness for C1 at a concrete world. -/
theorem dirty_tree_never_pulls_witness :
    _update_repository wDirty st0 "/r" "r" =
      Except.ok ⟨"/r",
        st0.events ++ [Event.out 1 (bold "r" ++ ":"),
          Event.out 2 "There are new changes upstream...",
          Event.out 2 (red "Warning: " ++
            "you have uncommitted changes in this repository!"),
          Event.out 2 "Ignoring."],
        st0.calls ++ [("/r", "git fetch --dry-run"),
          ("/r", "git log -n 1 --pretty=\"%ar\""), ("/r", "git status")]⟩ ∧
    (∀ c ∈ [("/r", "git fetch --dry-run"),
        ("/r", "git log -n 1 --pretty=\"%ar\""), ("/r", "git status")],
      c.2 ≠ "git pull") :=
  dirty_tree_never_pulls wDirty st0 "/r" "r" "x\n" "dirty\n"
    rfl (by decide) rfl (by decide)

/-- C2 counterexample: at this concrete input the `git status` failure is
NOT handled inside the Updater - `_update_repository` evaluates to
`Except.error`, the embedding of `subprocess.CalledProcessError` escaping
the function uncaught (the source wraps only the fetch and log commands in
`try/except`). -/
theorem status_failure_propagates_cx :
    _update_repository wStatusFail st0 "/r" "r" =
      Except.error ⟨"/r",
        [Event.out 1 "r:", Event.out 2 "There are new changes upstream..."],
        [("/r", "git fetch --dry-run"), ("/r", "git log -n 1 --pretty=\"%ar\""),
         ("/r", "git status")]⟩ := by
  rfl

/-- C2 amended: per-command failure semantics of the Updater. (a) A dry-run
fetch failure is caught: the Updater emits the fetch-error report and
returns normally, having issued no further commands. (b) A log failure is
caught and replaced by the sentinel age "never". (c) A `git status` failure
is NOT caught: it escapes the Updater. (d) A `git pull` failure is NOT
caught: it escapes the Updater. -/
theorem subprocess_failure_semantics (w : World) (st : St) (p n : String) :
    (∀ e, w.shell p "git fetch --dry-run" = Except.error e →
      _update_repository w st p n =
        Except.ok ⟨p, st.events ++ [Event.out 1 (bold n ++ ":"),
          Event.out 2 (red "Error: " ++
            "cannot fetch; do you have a remote repository configured correctly?")],
          st.calls ++ [(p, "git fetch --dry-run")]⟩) ∧
    (∀ f, w.shell p "git fetch --dry-run" = Except.ok f →
      (trimOut f).isEmpty = true →
      ∀ e, w.shell p "git log -n 1 --pretty=\"%ar\"" = Except.error e →
        _update_repository w st p n =
          Except.ok ⟨p, st.events ++ [Event.out 1 (bold n ++ ":"),
            Event.out 2 (blue "No new changes." ++
              " Last commit was " ++ "never" ++ ".")],
            st.calls ++ [(p, "git fetch --dry-run"),
              (p, "git log -n 1 --pretty=\"%ar\"")]⟩) ∧
    (∀ f, w.shell p "git fetch --dry-run" = Except.ok f →
      (trimOut f).isEmpty = false →
      ∀ e, w.shell p "git status" = Except.error e →
        ∃ s', _update_repository w st p n = Except.error s') ∧
    (∀ f s, w.shell p "git fetch --dry-run" = Except.ok f →
      (trimOut f).isEmpty = false →
      w.shell p "git status" = Except.ok s →
      strEndsWith (trimOut s) "nothing to commit, working directory clean" = true →
      ∀ e, w.shell p "git pull" = Except.error e →
        ∃ s', _update_repository w st p n = Except.error s') := by
  refine ⟨?_, ?_, ?_, ?_⟩
  · intro e hf
    simp only [_update_repository, _exec_shell, St.out]
    rw [hf]
    simp
  · intro f hf hemp e hlog
    simp only [_update_repository, _exec_shell, St.out]
    rw [hf, hlog]
    simp [hemp]
  · intro f hf hne e hstat
    refine ⟨⟨p, st.events ++ [Event.out 1 (bold n ++ ":"),
        Event.out 2 "There are new changes upstream..."],
      st.calls ++ [(p, "git fetch --dry-run"),
        (p, "git log -n 1 --pretty=\"%ar\""), (p, "git status")]⟩, ?_⟩
    simp only [_update_repository, _exec_shell, St.out]
    rw [hf]
    rcases hlog : w.shell p "git log -n 1 --pretty=\"%ar\"" with u | lc <;>
      simp [hlog, hne, hstat]
  · intro f s hf hne hstat hclean e hpull
    refine ⟨⟨p, st.events ++ [Event.out 1 (bold n ++ ":"),
        Event.out 2 "There are new changes upstream...",
        Event.out 2 (green "Pulling new changes...")],
      st.calls ++ [(p, "git fetch --dry-run"),
        (p, "git log -n 1 --pretty=\"%ar\""), (p, "git status"),
        (p, "git pull")]⟩, ?_⟩
    simp only [_update_repository, _exec_shell, St.out]
    rw [hf]
    rcases hlog : w.shell p "git log -n 1 --pretty=\"%ar\"" with u | lc <;>
      simp [hlog, hne, hstat, hclean, hpull]

/-- Witness for C2 exercising all four conjuncts at concrete worlds. -/
theorem subprocess_failure_semantics_witness :
    (_update_repository wFetchFail st0 "/r" "r" =
      Except.ok ⟨"/r", st0.events ++ [Event.out 1 (bold "r" ++ ":"),
        Event.out 2 (red "Error: " ++
          "cannot fetch; do you have a remote repository configured correctly?")],
        st0.calls ++ [("/r", "git fetch --dry-run")]⟩) ∧
    (_update_repository wLogFail st0 "/r" "r" =
      Except.ok ⟨"/r", st0.events ++ [Event.out 1 (bold "r" ++ ":"),
        Event.out 2 (blue "No new changes." ++
          " Last commit was " ++ "never" ++ ".")],
        st0.calls ++ [("/r", "git fetch --dry-run"),
          ("/r", "git log -n 1 --pretty=\"%ar\"")]⟩) ∧
    (∃ s', _update_repository wStatusFail st0 "/r" "r" = Except.error s') ∧
    (∃ s', _update_repository wPullFail st0 "/r" "r" = Except.error s') :=
  ⟨(subprocess_failure_semantics wFetchFail st0 "/r" "r").1 () rfl,
   (subprocess_failure_semantics wLogFail st0 "/r" "r").2.1 "\n" rfl
     (by decide) () rfl,
   (subprocess_failure_semantics wStatusFail st0 "/r" "r").2.2.1 "x\n" rfl
     (by decide) () rfl,
   (subprocess_failure_semantics wPullFail st0 "/r" "r").2.2.2 "x\n"
     "nothing to commit, working directory clean\n" rfl (by decide) rfl
     (by decide) () rfl⟩

/-- C5 counterexample: for captured output "abc" - which does not end in a
newline - the helper still drops the final character (`result[:-1]` is
unconditional), returning "ab" instead of leaving the output unchanged. -/
theorem exec_shell_trim_cx :
    (_exec_shell wTrim st0 "c").2 = Except.ok "ab" ∧ "ab" ≠ "abc" :=
  ⟨rfl, by decide⟩

/-- C5 amended: the helper captures combined stdout+stderr; on success it
returns the output with its final character removed whenever the output is
nonempty (the code assumes a trailing newline and strips unconditionally) -
in particular output that does end in a newline loses exactly that newline,
and empty output is returned unchanged; a nonzero exit status surfaces as
the catchable `Except.error`, never an uncaught crash of the helper
itself. -/
theorem exec_shell_semantics (w : World) (st : St) (cmd : String) :
    (∀ raw, w.shell st.cwd cmd = Except.ok raw →
      (_exec_shell w st cmd).2 =
        Except.ok (if raw.isEmpty then raw else raw.dropRight 1) ∧
      (strEndsWith raw "\n" = true →
        (_exec_shell w st cmd).2 = Except.ok (raw.dropRight 1))) ∧
    (∀ e, w.shell st.cwd cmd = Except.error e →
      (_exec_shell w st cmd).2 = Except.error e) := by
  refine ⟨?_, ?_⟩
  · intro raw hraw
    constructor
    · simp [_exec_shell, hraw, trimOut]
    · intro hnl
      simp [_exec_shell, hraw, trimOut, isEmpty_false_of_ends_newline hnl]
  · intro e he
    simp [_exec_shell, he]

/-- Witness for C5's amended theorem at concrete commands. -/
theorem exec_shell_semantics_witness :
    (_exec_shell wTrim st0 "nl").2 = Except.ok ("x\n".dropRight 1) ∧
    (_exec_shell wTrim st0 "zz").2 = Except.error () :=
  ⟨((exec_shell_semantics wTrim st0 "nl").1 "x\n" rfl).2 (by decide),
   (exec_shell_semantics wTrim st0 "zz").2 () rfl⟩

/-- C4 counterexample: for the existing non-directory path "f" (on a real
filesystem such a path is not listable, so the `os.listdir` probe raises
`OSError` first), the Resolver emits the generic
"cannot enter ...; does it exist?" message - not the distinct
"is not a directory" message the claim requires, and the same message an
absent path gets. -/
theorem resolver_messages_cx :
    _update_directory wFile st0 "f" "f" false =
      Except.ok ⟨"/",
        [Event.out 0 "Error: cannot enter directory 'f'; does it exist?"], []⟩ ∧
    "Error: cannot enter directory 'f'; does it exist?" ≠
      "Error: directory 'f' is not a directory!" :=
  ⟨rfl, by decide⟩

/-- C4 amended: if the path cannot be listed (on a real filesystem: absent,
inaccessible, or not a directory), the Resolver emits exactly one event,
the "cannot enter X; does it exist?" error, and stops - the state is
otherwise untouched, so neither the Probe's discovery nor the Updater runs.
The dedicated "is not a directory!" and "does not exist!" messages are
reachable only when listing succeeds while the path is not a directory,
which a POSIX `os.listdir` never allows; in all three error branches the
origin flag changes only the wording `bookmark 'X'` vs `directory 'X'`
inside `dir_long_name`, not which branch is taken. -/
theorem resolver_path_errors (w : World) (st : St) (p n : String) (flag : Bool) :
    (w.listOk p = false →
      _update_directory w st p n flag =
        Except.ok (st.out 0 (red "Error: " ++ "cannot enter " ++
          dir_long_name flag p ++ "; does it exist?"))) ∧
    (w.listOk p = true → w.isDir p = false → w.pathExists p = true →
      _update_directory w st p n flag =
        Except.ok (st.out 0 (red "Error: " ++ dir_long_name flag p ++
          " is not a directory!"))) ∧
    (w.listOk p = true → w.isDir p = false → w.pathExists p = false →
      _update_directory w st p n flag =
        Except.ok (st.out 0 (red "Error: " ++ dir_long_name flag p ++
          " does not exist!"))) ∧
    dir_long_name true p = "bookmark" ++ " '" ++ bold p ++ "'" ∧
    dir_long_name false p = "directory" ++ " '" ++ bold p ++ "'" := by
  refine ⟨?_, ?_, ?_, rfl, rfl⟩
  · intro hl
    exact update_directory_unlistable w st p n flag hl
  · intro hl hd hx
    rw [update_directory_not_dir w st p n flag hl hd, hx, if_pos rfl]
  · intro hl hd hx
    rw [update_directory_not_dir w st p n flag hl hd, hx,
      if_neg Bool.false_ne_true]

/-- Witness for C4's amended theorem: the unlistable branch at the concrete
file world. -/
theorem resolver_path_errors_witness :
    _update_directory wFile st0 "f" "f" false =
      Except.ok (st0.out 0 (red "Error: " ++ "cannot enter " ++
        dir_long_name false "f" ++ "; does it exist?")) :=
  (resolver_path_errors wFile st0 "f" "f" false).1 rfl

/-- C7: in the container branch the Resolver's first emitted event is the
count message, whose wording is singular ("contains 1 git repository")
exactly when exactly one repository was discovered and plural
("contains N git repositories") for any other count, zero included. -/
theorem container_count_message (w : World) (st : St) (p n : String)
    (flag : Bool) (hl : w.listOk p = true) (hd : w.isDir p = true)
    (hg : _directory_is_git_repo w p = false) :
    ∃ t, (stateOf (_update_directory w st p n flag)).events =
        st.events ++ Event.out 0 (count_message (discovered_repos w p n).length
          (dir_long_name flag p)) :: t ∧
      ((discovered_repos w p n).length = 1 →
        count_message (discovered_repos w p n).length (dir_long_name flag p) =
          str_capitalize (dir_long_name flag p) ++ " contains 1 git repository:") ∧
      ((discovered_repos w p n).length ≠ 1 →
        count_message (discovered_repos w p n).length (dir_long_name flag p) =
          str_capitalize (dir_long_name flag p) ++ " contains " ++
            toString (discovered_repos w p n).length ++ " git repositories:") := by
  rw [update_directory_container w st p n flag hl hd hg]
  obtain ⟨t, ht, _⟩ := update_repo_list_events w
    (List.insertionSort pairLe (discovered_repos w p n))
    (st.out 0 (count_message (discovered_repos w p n).length (dir_long_name flag p)))
  refine ⟨t, ?_, ?_, ?_⟩
  · rw [ht]
    simp [St.out]
  · intro h1
    unfold count_message
    rw [if_pos h1]
  · intro h1
    unfold count_message
    rw [if_neg h1]

/-- Witness for C7: three repositories, plural wording. -/
theorem container_count_message_witness :
    ∃ t, (stateOf (_update_directory wCont st0 "d" "d" false)).events =
        st0.events ++ Event.out 0 (count_message
          (discovered_repos wCont "d" "d").length (dir_long_name false "d")) :: t ∧
      ((discovered_repos wCont "d" "d").length = 1 →
        count_message (discovered_repos wCont "d" "d").length (dir_long_name false "d") =
          str_capitalize (dir_long_name false "d") ++ " contains 1 git repository:") ∧
      ((discovered_repos wCont "d" "d").length ≠ 1 →
        count_message (discovered_repos wCont "d" "d").length (dir_long_name false "d") =
          str_capitalize (dir_long_name false "d") ++ " contains " ++
            toString (discovered_repos wCont "d" "d").length ++ " git repositories:") :=
  container_count_message wCont st0 "d" "d" false rfl rfl rfl

/-- C6: in the container branch the list of repositories handed to the
update loop is `insertionSort pairLe` of the discovered list: it is sorted
in the Python tuple order (primary key the repository path, in code-point
lexicographic order), it is a permutation of whatever order the filesystem
enumerated, and on a normal run the per-repository header lines appear in
exactly that sorted order, one per repository. -/
theorem resolver_sorted_order (w : World) (st : St) (p n : String)
    (flag : Bool) (hl : w.listOk p = true) (hd : w.isDir p = true)
    (hg : _directory_is_git_repo w p = false) (st' : St)
    (hok : _update_directory w st p n flag = Except.ok st') :
    List.Sorted pairLe (List.insertionSort pairLe (discovered_repos w p n)) ∧
    List.Sorted (fun a b : String × String => strLtB a.1 b.1 = true ∨ a.1 = b.1)
      (List.insertionSort pairLe (discovered_repos w p n)) ∧
    (List.insertionSort pairLe (discovered_repos w p n)).Perm
      (discovered_repos w p n) ∧
    ∃ t, st'.events = st.events ++ t ∧
      headersOf t = (List.insertionSort pairLe (discovered_repos w p n)).map
        (fun r => bold r.2 ++ ":") := by
  have hsorted := List.sorted_insertionSort pairLe (discovered_repos w p n)
  refine ⟨hsorted, hsorted.imp (fun h => pairLe_path h), 
    List.perm_insertionSort pairLe (discovered_repos w p n), ?_⟩
  rw [update_directory_container w st p n flag hl hd hg] at hok
  obtain ⟨t, ht, hh, _⟩ := update_repo_list_ok w
    (List.insertionSort pairLe (discovered_repos w p n))
    (st.out 0 (count_message (discovered_repos w p n).length (dir_long_name flag p)))
    st' hok
  refine ⟨Event.out 0 (count_message (discovered_repos w p n).length
    (dir_long_name flag p)) :: t, ?_, ?_⟩
  · rw [ht]
    simp [St.out]
  · rw [headersOf_cons_out0, hh]

/-- Witness for C6: with children enumerated b, a, c the headers appear in
order a, b, c. -/
theorem resolver_sorted_order_witness :
    List.Sorted pairLe (List.insertionSort pairLe (discovered_repos wCont "d" "d")) ∧
    List.Sorted (fun a b : String × String => strLtB a.1 b.1 = true ∨ a.1 = b.1)
      (List.insertionSort pairLe (discovered_repos wCont "d" "d")) ∧
    (List.insertionSort pairLe (discovered_repos wCont "d" "d")).Perm
      (discovered_repos wCont "d" "d") ∧
    ∃ t, stCont.events = st0.events ++ t ∧
      headersOf t = (List.insertionSort pairLe (discovered_repos wCont "d" "d")).map
        (fun r => bold r.2 ++ ":") :=
  resolver_sorted_order wCont st0 "d" "d" false rfl rfl rfl stCont rfl

/-- C8: with an empty bookmark list, `update_bookmarks` emits exactly the
one guidance message and changes nothing else (working directory and call
log untouched); with a nonempty list it is exactly the loop that resolves
each bookmark in order with the bookmark origin flag, and no event emitted
by that loop is the guidance message. -/
theorem update_bookmarks_spec (w : World) (st : St) :
    (update_bookmarks w st [] =
      Except.ok (st.out 0
        "You don't have any bookmarks configured! Get help with 'gitup -h'.")) ∧
    (∀ b rest,
      update_bookmarks w st (b :: rest) = update_dir_list w st (b :: rest) ∧
      ∃ t, (stateOf (update_dir_list w st (b :: rest))).events = st.events ++ t ∧
        Event.out 0 "You don't have any bookmarks configured! Get help with 'gitup -h'."
          ∉ t) := by
  refine ⟨rfl, ?_⟩
  intro b rest
  refine ⟨rfl, ?_⟩
  obtain ⟨t, ht, hz⟩ := update_dir_list_events w (b :: rest) st
  refine ⟨t, ht, ?_⟩
  intro hmem
  have hm := mem_outZeroOf hmem
  rcases hz _ hm with h | h <;> cases h

/-- Witness for C8's empty-list branch at a concrete world. -/
theorem update_bookmarks_spec_witness :
    update_bookmarks wCont st0 [] =
      Except.ok (st0.out 0
        "You don't have any bookmarks configured! Get help with 'gitup -h'.") :=
  (update_bookmarks_spec wCont st0).1
